import Mathlib

/-!
Shallow embedding of the echoes-backend demo server (two variants: the
structured-message server in `server.js` and the prompt-concatenation
server in the unnamed source file) and proofs about the claims of its
specification.

The two variants share all gate / quota logic; they differ only in the
provider adapter (Claude structured messages vs. HuggingFace prompt
concatenation), the history-trim length (12 vs. 8), the default daily
limit (200 vs. 500) and the presence of an `aiProvider` field in the
`/api/verify` success body.
-/

set_option autoImplicit false

namespace Echoes

/-- A chat message as carried in the request body: `{role, content}`. -/
structure Msg where
  role : String
  content : String
deriving DecidableEq, Repr

/-- Untyped JSON values, as delivered by `response.json()` upstream. -/
inductive Json where
  | null
  | bool (b : Bool)
  | num (n : Int)
  | str (s : String)
  | arr (elems : List Json)
  | obj (fields : List (String × Json))

/-- Property lookup on a JSON object field list (first binding wins). -/
def getField : List (String × Json) → String → Option Json
  | [], _ => none
  | (k, v) :: rest, key => if k = key then some v else getField rest key

/-- JavaScript property access `data.generated_text`: a field of an object,
`undefined` (here `none`) on every other value. -/
def getGT : Json → Option Json
  | .obj fs => getField fs "generated_text"
  | _ => none

/-- JavaScript `data[0]?.generated_text`: the `generated_text` property of the
first array element, `undefined` when `data` is not a nonempty array. -/
def firstElemGT : Json → Option Json
  | .arr (x :: _) => getGT x
  | _ => none

/-- JavaScript truthiness of a JSON value. -/
def jsTruthy : Json → Bool
  | .null => false
  | .bool b => b
  | .num n => n != 0
  | .str s => s != ""
  | .arr _ => true
  | .obj _ => true

/-- Truthiness of a possibly-`undefined` value (`undefined` is falsy). -/
def truthyOpt : Option Json → Bool
  | none => false
  | some v => jsTruthy v

/-- How one pass over the response-shape checks of `callHuggingFace` ends:
a returned value, the explicit `throw new Error('Unexpected response format')`,
or the TypeError raised by a bare property access on `null`. -/
inductive NormResult where
  | value (v : Json)
  | formatError
  | typeError

/-- The response-shape normalization of `callHuggingFace`
(part_000 lines 103-111): first branch `Array.isArray(data) && data[0]?.generated_text`
(optional chaining, never throws), second branch the bare access
`data.generated_text` — which on a `null` body throws a TypeError before any
later check is reached — third branch `typeof data === 'string'`, and
otherwise the explicit unexpected-response-format throw. -/
def normalizeHF (data : Json) : NormResult :=
  if truthyOpt (firstElemGT data) then
    .value ((firstElemGT data).getD Json.null)
  else
    match data with
    | .null => .typeError
    | _ =>
      if truthyOpt (getGT data) then .value ((getGT data).getD Json.null)
      else
        match data with
        | .str _ => .value data
        | _ => .formatError

/-- Whether the normalization pass throws (either of the two error paths). -/
def normThrows : NormResult → Bool
  | .value _ => false
  | .formatError => true
  | .typeError => true

/-- What one upstream fetch attempt yields, as observed by `callHuggingFace`. -/
inductive UpstreamResp where
  | status503
  | httpError (status : Nat) (text : String)
  | fetchThrow (msg : String)
  | ok (body : Json)

/-- Errors that `callHuggingFace` can propagate to its caller: a non-ok
HTTP status, a rejected fetch, the unexpected-response-format error, or the
TypeError thrown by probing `generated_text` on a `null` body. -/
inductive HFErr where
  | apiError (status : Nat) (text : String)
  | jsError (msg : String)
  | unexpectedFormat
  | typeError

/-- Outcome of a `callHuggingFace` invocation: a returned value, a thrown
error, or the JavaScript `undefined` produced when the `for` loop finishes
without returning or throwing. -/
inductive HFOutcome where
  | value (v : Json)
  | thrown (e : HFErr)
  | undef

/-- The body of the retry `for` loop of `callHuggingFace`
(part_000 lines 70-119). `resp i` is what the upstream yields on attempt `i`;
`fuel` is the number of loop iterations still permitted, so the loop
condition `i < retries` is `fuel > 0` (the entry point establishes the
invariant `i + fuel = retries`). A 503 waits 10 seconds and `continue`s;
a non-ok status or a fetch rejection is thrown, caught by the `catch`,
and rethrown only on the last attempt (`i === retries - 1`); an ok body is
normalized, an unrecognized shape throwing inside the same `try`. -/
def hfLoop (resp : Nat → UpstreamResp) (retries : Nat) : Nat → Nat → HFOutcome
  | _, 0 => .undef
  | i, fuel + 1 =>
    match resp i with
    | .status503 => hfLoop resp retries (i + 1) fuel
    | .httpError s t =>
      if i = retries - 1 then .thrown (.apiError s t)
      else hfLoop resp retries (i + 1) fuel
    | .fetchThrow m =>
      if i = retries - 1 then .thrown (.jsError m)
      else hfLoop resp retries (i + 1) fuel
    | .ok body =>
      match normalizeHF body with
      | .value v => .value v
      | .formatError =>
        if i = retries - 1 then .thrown .unexpectedFormat
        else hfLoop resp retries (i + 1) fuel
      | .typeError =>
        if i = retries - 1 then .thrown .typeError
        else hfLoop resp retries (i + 1) fuel

/-- The prompt-concatenation adapter `callHuggingFace(prompt, retries = 3)`:
run the retry loop from attempt 0 with the full budget. -/
def callHuggingFace (resp : Nat → UpstreamResp) (retries : Nat := 3) : HFOutcome :=
  hfLoop resp retries 0 retries

/-- An attempt whose upstream response does not produce a return value:
a cold-start 503, a thrown HTTP/fetch error, or an unrecognized body shape. -/
def attemptFails : UpstreamResp → Bool
  | .status503 => true
  | .httpError _ _ => true
  | .fetchThrow _ => true
  | .ok b => normThrows (normalizeHF b)

/-- Outcome of the final attempt of the loop: its errors are rethrown —
distinguishing the body-probing TypeError from the unexpected-format
error — while a final cold-start response makes the loop exit and return
`undefined`. -/
def failureOutcome : UpstreamResp → HFOutcome
  | .status503 => .undef
  | .httpError s t => .thrown (.apiError s t)
  | .fetchThrow m => .thrown (.jsError m)
  | .ok b =>
    match normalizeHF b with
    | .value v => .value v
    | .formatError => .thrown .unexpectedFormat
    | .typeError => .thrown .typeError

/-- Modelled from the wording of the spec, for comparison with `normalizeHF`:
the three accepted response shapes — a list whose first element carries a
`generated_text` field, a bare object carrying `generated_text`, or a raw
string. -/
def specAccepted : Json → Bool
  | .arr (x :: _) => (getGT x).isSome
  | .obj fs => (getField fs "generated_text").isSome
  | .str _ => true
  | _ => false

/-- The structured-message adapter `callClaude` (server.js lines 72-99), payload
side: the standalone system instruction sent in the `system` field —
`systemMessage ? systemMessage.content : ''` where `systemMessage` is
`messages.find(m => m.role === 'system')`. -/
def claudeSystem (messages : List Msg) : String :=
  match messages.find? (fun m => m.role == "system") with
  | some m => m.content
  | none => ""

/-- The structured-message adapter, payload side: the conversation body sent
in the `messages` field — `messages.filter(m => m.role !== 'system')`. -/
def claudeConversation (messages : List Msg) : List Msg :=
  messages.filter (fun m => m.role != "system")

/-- Rendering of one message inside `buildPrompt` (part_000 lines 121-133):
system, user and assistant roles each get a template; any other role adds
nothing to the prompt. -/
def renderMsg (m : Msg) : String :=
  if m.role = "system" then
    "<s>[INST] You are playing a character. " ++ m.content ++ " [/INST]\n\n"
  else if m.role = "user" then
    "[INST] " ++ m.content ++ " [/INST]\n"
  else if m.role = "assistant" then
    m.content ++ "\n\n"
  else ""

/-- The prompt builder of the prompt-concatenation variant: the `for` loop
accumulating `prompt +=` per message, i.e. a left fold starting from `''`. -/
def buildPrompt (messages : List Msg) : String :=
  messages.foldl (fun acc m => acc ++ renderMsg m) ""

/-- JavaScript `String.prototype.trim`: strip leading and trailing
whitespace (executable model over the character list). -/
def jsTrim (s : String) : String :=
  ⟨((s.data.dropWhile Char.isWhitespace).reverse.dropWhile Char.isWhitespace).reverse⟩

/-- The `/api/chat` request validation
(`!messages || !Array.isArray(messages) || messages.length === 0`):
`none` models an absent or non-array `messages` value. -/
def validMessages : Option (List Msg) → Bool
  | none => false
  | some ms => !ms.isEmpty

/-- JavaScript `arr.slice(-n)` for `n ≥ 1`: the suffix of the most recent
`n` entries (the whole list when it is shorter than `n`). -/
def sliceLast {α : Type} (n : Nat) (l : List α) : List α :=
  l.drop (l.length - n)

/-- The process-wide quota store: `dailyRequestCount` and `lastResetDate`
(both variants, lines 22-25 / 24-25). Calendar days are abstracted to an
identifier (`Nat`); the count is an integer. -/
structure QuotaState where
  count : Int
  lastResetDate : Nat
deriving DecidableEq, Repr

/-- The lazy daily reset `resetDailyCounter` (server.js lines 30-36,
part_000 lines 28-34): zero the count and store the new day iff the current
day differs from the stored one. -/
def resetDailyCounter (today : Nat) (s : QuotaState) : QuotaState :=
  if today ≠ s.lastResetDate then ⟨0, today⟩ else s

/-- Response of `POST /api/verify`: status plus the JSON body fields, with
`none` for a field absent from the body. -/
structure VerifyResponse where
  status : Nat
  valid : Bool
  message : Option String
  requestsRemaining : Option Int
  aiProvider : Option String
  error : Option String
deriving DecidableEq, Repr

/-- JavaScript falsiness of the extracted `password` property: absent
(`undefined`) or the empty string. -/
def jsFalsyStr : Option String → Bool
  | none => true
  | some s => s == ""

/-- The `/api/verify` handler of the structured-message variant
(server.js lines 113-128): 400 when `!password`, 200 with `valid:true`,
message, `requestsRemaining` computed after the lazy reset, and an
`aiProvider` field, when the password equals the secret; 401 otherwise. -/
def verifyClaude (today : Nat) (limit : Int) (secret : String)
    (password : Option String) (s : QuotaState) : VerifyResponse × QuotaState :=
  if jsFalsyStr password then
    (⟨400, false, none, none, none, some "Password is required"⟩, s)
  else if password = some secret then
    let s1 := resetDailyCounter today s
    (⟨200, true, some "Password verified successfully",
      some (max 0 (limit - s1.count)), some "Claude 3.5 Haiku", none⟩, s1)
  else
    (⟨401, false, none, none, none, some "Invalid password"⟩, s)

/-- The `/api/verify` handler of the prompt-concatenation variant
(part_000 lines 147-161): identical except that the success body carries
no `aiProvider` field. -/
def verifyHF (today : Nat) (limit : Int) (secret : String)
    (password : Option String) (s : QuotaState) : VerifyResponse × QuotaState :=
  if jsFalsyStr password then
    (⟨400, false, none, none, none, some "Password is required"⟩, s)
  else if password = some secret then
    let s1 := resetDailyCounter today s
    (⟨200, true, some "Password verified successfully",
      some (max 0 (limit - s1.count)), none, none⟩, s1)
  else
    (⟨401, false, none, none, none, some "Invalid password"⟩, s)

/-- Body of the `GET /health` response (both variants). -/
structure HealthBody where
  status : String
  demoActive : Bool
  requestsToday : Int
  dailyLimit : Int
  remainingToday : Int
  aiProvider : String
deriving DecidableEq, Repr

/-- The `GET /health` handler (server.js lines 101-111, part_000
lines 135-145): no middleware runs on this route, so authentication and
rate state never appear; it performs the lazy reset and reports the
post-reset count with HTTP 200. -/
def healthHandler (today : Nat) (limit : Int) (demoActive : Bool)
    (provider : String) (s : QuotaState) : Nat × HealthBody × QuotaState :=
  let s1 := resetDailyCounter today s
  (200,
   ⟨"online", demoActive, s1.count, limit, max 0 (limit - s1.count), provider⟩,
   s1)

/-- What the provider adapter call yields as observed by the route handler:
either a returned JavaScript value — `ret (some v)` for a JSON value,
`ret none` for `undefined`, which `callHuggingFace` produces when its loop
exhausts on a final cold-start response — or a thrown error caught by the
route's try/catch. -/
inductive AdapterOutcome where
  | ret (v : Option Json)
  | thrown (msg : String)

/-- Result of a `POST /api/chat` request, one constructor per distinct
response the route can produce. -/
inductive ChatResult where
  | authError
  | rateLimited
  | dailyLimitReached
  | demoExpired
  | invalidMessages
  | serverError
  | success (message : String) (requestsRemaining : Int)
deriving DecidableEq, Repr

/-- The `POST /api/chat` pipeline (both variants; server.js lines 130-160,
part_000 lines 163-194): the middleware chain `validatePassword` (401),
`chatLimiter` (429), `dailyLimitMiddleware` (lazy reset, then 429 when
`dailyRequestCount >= DAILY_LIMIT`), then the handler: demo-window check
(403), messages validation (400), history trim `messages.slice(-keep)`
(`keep` is 12 in the structured variant, 8 in the prompt variant), the
adapter call, and the response. A thrown adapter error is caught before the
increment, giving 500 with the counter untouched. When the adapter returns,
`dailyRequestCount++` (line 178 / 144) executes first; only then does the
response literal evaluate `ghostResponse.trim()`, which succeeds for a
string and throws a TypeError for `undefined` or any non-string value —
caught by the same try/catch, giving 500 with the counter already
incremented. On a string the success body carries
`requestsRemaining = max(0, limit - count)` computed after the increment.
`authOk` is the outcome of the password-header comparison and `rateOk` of
the per-minute limiter, both external to the quota store. -/
def chatHandler (authOk rateOk demoActive : Bool) (today : Nat) (limit : Int)
    (keep : Nat) (adapter : List Msg → AdapterOutcome)
    (messages : Option (List Msg)) (s : QuotaState) : ChatResult × QuotaState :=
  if authOk = false then (.authError, s)
  else if rateOk = false then (.rateLimited, s)
  else
    let s1 := resetDailyCounter today s
    if limit ≤ s1.count then (.dailyLimitReached, s1)
    else if demoActive = false then (.demoExpired, s1)
    else
      match messages with
      | none => (.invalidMessages, s1)
      | some ms =>
        if ms.isEmpty then (.invalidMessages, s1)
        else
          match adapter (sliceLast keep ms) with
          | .thrown _ => (.serverError, s1)
          | .ret v =>
            let s2 : QuotaState := ⟨s1.count + 1, s1.lastResetDate⟩
            match v with
            | some (Json.str text) =>
              (.success (jsTrim text) (max 0 (limit - s2.count)), s2)
            | _ => (.serverError, s2)

/-- Results produced by one of the four gates or by request validation,
as opposed to an adapter failure or a success. -/
def isGateRejection : ChatResult → Bool
  | .authError => true
  | .rateLimited => true
  | .dailyLimitReached => true
  | .demoExpired => true
  | .invalidMessages => true
  | _ => false

/-! ## Helper lemmas -/

/-- A `null` body throws the TypeError of the bare property access. -/
theorem normalizeHF_null : normalizeHF Json.null = NormResult.typeError := rfl

/-- A body of none of the three spec shapes, other than `null`, falls
through every branch of the response normalization to the explicit
unexpected-response-format throw. -/
theorem normalizeHF_of_not_specAccepted (body : Json)
    (h : specAccepted body = false) (hnull : body ≠ Json.null) :
    normalizeHF body = NormResult.formatError := by
  cases body with
  | null => exact absurd rfl hnull
  | bool b => rfl
  | num n => rfl
  | str s => simp [specAccepted] at h
  | obj fs =>
    have hf : getField fs "generated_text" = none := by
      simpa [specAccepted, Option.isSome_iff_exists] using h
    simp [normalizeHF, firstElemGT, getGT, truthyOpt, hf]
  | arr elems =>
    cases elems with
    | nil => rfl
    | cons x xs =>
      have hf : getGT x = none := by
        simpa [specAccepted, Option.isSome_iff_exists] using h
      have harr : getGT (Json.arr (x :: xs)) = none := rfl
      simp [normalizeHF, firstElemGT, hf, harr, truthyOpt]

/-- A body of none of the three spec shapes always throws during
normalization (either error path). -/
theorem normThrows_of_not_specAccepted (body : Json)
    (h : specAccepted body = false) : normThrows (normalizeHF body) = true := by
  cases body with
  | null => rfl
  | bool b => rfl
  | num n => rfl
  | str s => simp [specAccepted] at h
  | obj fs =>
    rw [normalizeHF_of_not_specAccepted _ h (fun hc => Json.noConfusion hc)]
    rfl
  | arr elems =>
    rw [normalizeHF_of_not_specAccepted _ h (fun hc => Json.noConfusion hc)]
    rfl

/-- When all three attempts fail, the call ends with the final attempt's
failure outcome: a rethrown error, or `undefined` after a final cold-start. -/
theorem hfLoop_exhaust (resp : Nat → UpstreamResp)
    (h0 : attemptFails (resp 0) = true) (h1 : attemptFails (resp 1) = true)
    (_h2 : attemptFails (resp 2) = true) :
    callHuggingFace resp 3 = failureOutcome (resp 2) := by
  have step : ∀ i fuel, i ≠ 2 → attemptFails (resp i) = true →
      hfLoop resp 3 i (fuel + 1) = hfLoop resp 3 (i + 1) fuel := by
    intro i fuel hi hf
    rcases hr : resp i with _ | ⟨st, tx⟩ | m | b
    · simp [hfLoop, hr]
    · simp [hfLoop, hr, hi]
    · simp [hfLoop, hr, hi]
    · rw [hr] at hf
      rcases hn : normalizeHF b with v | _ | _
      · simp [attemptFails, hn, normThrows] at hf
      · simp [hfLoop, hr, hn, hi]
      · simp [hfLoop, hr, hn, hi]
  have fin : hfLoop resp 3 2 1 = failureOutcome (resp 2) := by
    rcases hr : resp 2 with _ | ⟨st, tx⟩ | m | b
    · simp [hfLoop, hr, failureOutcome]
    · simp [hfLoop, hr, failureOutcome]
    · simp [hfLoop, hr, failureOutcome]
    · rcases hn : normalizeHF b with v | _ | _ <;>
        simp [hfLoop, hr, hn, failureOutcome]
  unfold callHuggingFace
  calc hfLoop resp 3 0 3 = hfLoop resp 3 1 2 := step 0 2 (by omega) h0
    _ = hfLoop resp 3 2 1 := step 1 1 (by omega) h1
    _ = failureOutcome (resp 2) := fin

/-! ## Claim C1 -/

/-- Claim C1, counterexample: three consecutive cold-start (503) responses
consume the whole retry budget, yet the adapter does not raise — the loop
finishes and the call returns `undefined`. -/
theorem coldstart_exhaustion_returns_undef :
    callHuggingFace (fun _ => UpstreamResp.status503) 3 = HFOutcome.undef := rfl

/-- Claim C1, amended: each cold-start response consumes one of the 3
attempts (the loop simply moves to the next attempt), and when all attempts
fail the adapter rethrows the final attempt's error — the HTTP error, the
fetch rejection, the TypeError from probing `generated_text` on a `null`
body, or the unexpected-format error — except when the final attempt is a
cold-start response, in which case the loop exits and the call returns
`undefined` instead of raising. -/
theorem retry_budget_exhaustion (resp : Nat → UpstreamResp)
    (h0 : attemptFails (resp 0) = true) (h1 : attemptFails (resp 1) = true)
    (h2 : attemptFails (resp 2) = true) :
    callHuggingFace resp 3 = failureOutcome (resp 2) ∧
    (∀ i fuel, resp i = UpstreamResp.status503 →
      hfLoop resp 3 i (fuel + 1) = hfLoop resp 3 (i + 1) fuel) := by
  refine ⟨hfLoop_exhaust resp h0 h1 h2, ?_⟩
  intro i fuel h
  simp [hfLoop, h]

/-- Witness for the amended claim C1: three generic upstream errors make the
call rethrow the final error after exactly 3 attempts. -/
theorem retry_budget_exhaustion_witness :
    callHuggingFace (fun _ => UpstreamResp.httpError 500 "err") 3 =
      failureOutcome (UpstreamResp.httpError 500 "err") :=
  (retry_budget_exhaustion (fun _ => UpstreamResp.httpError 500 "err")
    rfl rfl rfl).1

/-! ## Claim C2 -/

/-- Claim C2, counterexample: an attempt-0 body matching none of the three
accepted shapes does not fail the call — the thrown format error is caught
by the retry loop, and a well-formed attempt-1 body makes the call succeed. -/
theorem unexpected_format_is_retried :
    specAccepted (Json.obj []) = false ∧
    callHuggingFace
      (fun i => if i == 0 then UpstreamResp.ok (Json.obj [])
                else UpstreamResp.ok (Json.str "hi")) 3 =
      HFOutcome.value (Json.str "hi") := ⟨rfl, rfl⟩

/-- Claim C2, amended: a body of none of the three accepted shapes throws at
that attempt — the TypeError of the bare `generated_text` access when the
body is `null`, the unexpected-response-format error otherwise — and the
throw is absorbed by the retry loop like any generic failure: on a
non-final attempt the loop proceeds to the next attempt, and only on the
final attempt is that error propagated to the caller. -/
theorem unexpected_format_retry_policy (body : Json) (resp : Nat → UpstreamResp)
    (hb : specAccepted body = false) :
    (resp 0 = UpstreamResp.ok body → callHuggingFace resp 3 = hfLoop resp 3 1 2) ∧
    (resp 2 = UpstreamResp.ok body →
      attemptFails (resp 0) = true → attemptFails (resp 1) = true →
      callHuggingFace resp 3 = failureOutcome (UpstreamResp.ok body)) ∧
    (body = Json.null →
      failureOutcome (UpstreamResp.ok body) = HFOutcome.thrown HFErr.typeError) ∧
    (body ≠ Json.null →
      failureOutcome (UpstreamResp.ok body) =
        HFOutcome.thrown HFErr.unexpectedFormat) := by
  have hthrows : normThrows (normalizeHF body) = true :=
    normThrows_of_not_specAccepted body hb
  refine ⟨?_, ?_, ?_, ?_⟩
  · intro h0
    rcases hn : normalizeHF body with v | _ | _
    · rw [hn] at hthrows
      simp [normThrows] at hthrows
    · simp [callHuggingFace, hfLoop, h0, hn]
    · simp [callHuggingFace, hfLoop, h0, hn]
  · intro h2 hf0 hf1
    have hf2 : attemptFails (resp 2) = true := by
      rw [h2]
      simpa [attemptFails] using hthrows
    rw [hfLoop_exhaust resp hf0 hf1 hf2, h2]
  · rintro rfl
    rfl
  · intro hnull
    have hfmt := normalizeHF_of_not_specAccepted body hb hnull
    simp [failureOutcome, hfmt]

/-- Witness for the amended claim C2: an unrecognized non-null body on every
attempt ends with the unexpected-format error propagated from the final
attempt. -/
theorem unexpected_format_retry_policy_witness :
    callHuggingFace (fun _ => UpstreamResp.ok (Json.num 7)) 3 =
      HFOutcome.thrown HFErr.unexpectedFormat := by
  have h := unexpected_format_retry_policy (Json.num 7)
    (fun _ => UpstreamResp.ok (Json.num 7)) rfl
  rw [h.2.1 rfl rfl rfl]
  exact h.2.2.2 (fun hc => Json.noConfusion hc)

/-! ## Claim C3 -/

/-- Finding the first system message in a list whose prefix has none. -/
theorem find?_system_of_prefix_free (pre post : List Msg) (m : Msg)
    (hm : (m.role == "system") = true)
    (hpre : ∀ x ∈ pre, (x.role == "system") = false) :
    (pre ++ m :: post).find? (fun x => x.role == "system") = some m := by
  induction pre with
  | nil => simp [List.find?_cons_of_pos, hm]
  | cons a as ih =>
    have ha := hpre a (by simp)
    rw [List.cons_append, List.find?_cons_of_neg _ (by simp [ha])]
    exact ih fun x hx => hpre x (by simp [hx])

/-- Claim C3, counterexample: a system-role message occurring after the
first one is not passed through in the conversation body — the filter
removes every system message, not only the first. -/
theorem later_system_message_dropped :
    claudeConversation [⟨"system", "a"⟩, ⟨"user", "b"⟩, ⟨"system", "c"⟩] =
      [⟨"user", "b"⟩] := rfl

/-- Claim C3, amended: the structured-message adapter takes the first
system-role message (if any) as the standalone system instruction, removes
every system-role message from the conversation body, and passes exactly the
non-system messages, in their original order (the body is a sublist of the
input). -/
theorem claude_message_separation (messages pre post : List Msg) (m : Msg) :
    (∀ x ∈ claudeConversation messages, x.role ≠ "system") ∧
    List.Sublist (claudeConversation messages) messages ∧
    (∀ x ∈ messages, x.role ≠ "system" → x ∈ claudeConversation messages) ∧
    (messages = pre ++ m :: post → m.role = "system" →
      (∀ x ∈ pre, x.role ≠ "system") → claudeSystem messages = m.content) := by
  refine ⟨?_, List.filter_sublist _, ?_, ?_⟩
  · intro x hx
    have h := List.of_mem_filter hx
    simpa using h
  · intro x hx hr
    exact List.mem_filter.mpr ⟨hx, by simpa using hr⟩
  · rintro rfl hm hpre
    unfold claudeSystem
    rw [find?_system_of_prefix_free pre post m (by simpa using hm)
      (fun x hx => by simpa using hpre x hx)]

/-- Witness for the amended claim C3: with a leading system message the
system instruction is its content. -/
theorem claude_message_separation_witness :
    claudeSystem [⟨"system", "a"⟩, ⟨"user", "b"⟩] = "a" := by
  have h := claude_message_separation [⟨"system", "a"⟩, ⟨"user", "b"⟩]
    [] [⟨"user", "b"⟩] ⟨"system", "a"⟩
  exact h.2.2.2 rfl rfl (by simp)

/-! ## Claim C4 -/

/-- Claim C4, counterexample: in the prompt-concatenation variant the 200
body of a successful verification carries no `aiProvider` field, and an
empty-string password (a supplied wrong password) is rejected with 400,
not 401, because the handler tests JavaScript falsiness. -/
theorem verify_claim_fails :
    (verifyHF 0 500 "echoes2025" (some "echoes2025") ⟨0, 0⟩).1.aiProvider = none ∧
    (verifyClaude 0 200 "echoes2025" (some "") ⟨0, 0⟩).1.status = 400 := ⟨rfl, rfl⟩

/-- Claim C4, amended: `/api/verify` returns 400 when the password is absent
or the empty string; a password equal to the configured (nonempty) secret
yields 200 with `valid:true`, a message and `requestsRemaining` in both
variants, the `aiProvider` field appearing only in the structured variant;
any other supplied password yields 401 with `valid:false`. -/
theorem verify_behavior (today : Nat) (limit : Int) (secret : String)
    (password : Option String) (s : QuotaState) :
    (jsFalsyStr password = true →
      (verifyClaude today limit secret password s).1.status = 400 ∧
      (verifyHF today limit secret password s).1.status = 400) ∧
    (secret ≠ "" →
      (verifyClaude today limit secret (some secret) s).1 =
        ⟨200, true, some "Password verified successfully",
         some (max 0 (limit - (resetDailyCounter today s).count)),
         some "Claude 3.5 Haiku", none⟩ ∧
      (verifyHF today limit secret (some secret) s).1 =
        ⟨200, true, some "Password verified successfully",
         some (max 0 (limit - (resetDailyCounter today s).count)),
         none, none⟩) ∧
    (jsFalsyStr password = false → password ≠ some secret →
      (verifyClaude today limit secret password s).1.status = 401 ∧
      (verifyClaude today limit secret password s).1.valid = false ∧
      (verifyHF today limit secret password s).1.status = 401 ∧
      (verifyHF today limit secret password s).1.valid = false) := by
  refine ⟨?_, ?_, ?_⟩
  · intro h
    simp [verifyClaude, verifyHF, h]
  · intro hsec
    have hf : jsFalsyStr (some secret) = false := by
      simp [jsFalsyStr, hsec]
    simp [verifyClaude, verifyHF, hf]
  · intro hf hne
    simp [verifyClaude, verifyHF, hf, hne]

/-- Witness for the amended claim C4: a correct password in the structured
variant, with 3 requests already served today, leaves 197 of the 200. -/
theorem verify_behavior_witness :
    (verifyClaude 0 200 "echoes2025" (some "echoes2025") ⟨3, 0⟩).1 =
      ⟨200, true, some "Password verified successfully", some 197,
       some "Claude 3.5 Haiku", none⟩ := by
  have h := (verify_behavior 0 200 "echoes2025" (some "echoes2025")
    ⟨3, 0⟩).2.1 (by decide)
  rw [h.1]
  rfl

/-! ## Claim C5 -/

/-- Claim C5, counterexample: the daily counter is mutated off the success
path in two reachable ways. A demo-expired rejection on the first request
after a calendar-day change zeroes it (5 becomes 0) although the request is
rejected and no upstream call is made; and an adapter call that returns
`undefined` (the prompt adapter after a final-attempt cold-start) makes the
route increment the counter (5 becomes 6) before the reply serialization
throws, yielding a 500 with the counter incremented. -/
theorem gate_rejection_can_reset_counter :
    (chatHandler true true false 1 500 8
        (fun _ => AdapterOutcome.ret (some (Json.str "x")))
        (some [⟨"user", "hi"⟩]) ⟨5, 0⟩).1 = ChatResult.demoExpired ∧
    (chatHandler true true false 1 500 8
        (fun _ => AdapterOutcome.ret (some (Json.str "x")))
        (some [⟨"user", "hi"⟩]) ⟨5, 0⟩).2.count = 0 ∧
    (chatHandler true true true 0 500 8 (fun _ => AdapterOutcome.ret none)
        (some [⟨"user", "hi"⟩]) ⟨5, 0⟩).1 = ChatResult.serverError ∧
    (chatHandler true true true 0 500 8 (fun _ => AdapterOutcome.ret none)
        (some [⟨"user", "hi"⟩]) ⟨5, 0⟩).2.count = 6 := ⟨rfl, rfl, rfl, rfl⟩

/-- Claim C5, amended: on any gate rejection no upstream call is made (the
outcome is the same for every adapter) and the counter is never incremented —
the only possible mutation is the lazy day-reset, so the state is unchanged
whenever the stored day matches the current one; on success the count is
incremented by exactly 1 over the post-reset count and
`requestsRemaining = max 0 (limit - count)` is computed from the incremented
count; an adapter call that throws yields the 500 result with the
post-reset, non-incremented state, but an adapter call that returns
`undefined` increments the counter first and then yields the 500 result
when the reply serialization throws. -/
theorem counter_mutation_policy (authOk rateOk demoActive : Bool) (today : Nat)
    (limit : Int) (keep : Nat)
    (adapter adapter2 : List Msg → AdapterOutcome)
    (messages : Option (List Msg)) (s : QuotaState) :
    (isGateRejection
        (chatHandler authOk rateOk demoActive today limit keep adapter messages s).1 = true →
      chatHandler authOk rateOk demoActive today limit keep adapter2 messages s =
        chatHandler authOk rateOk demoActive today limit keep adapter messages s ∧
      ((chatHandler authOk rateOk demoActive today limit keep adapter messages s).2 = s ∨
       (chatHandler authOk rateOk demoActive today limit keep adapter messages s).2 =
         resetDailyCounter today s) ∧
      (today = s.lastResetDate →
        (chatHandler authOk rateOk demoActive today limit keep adapter messages s).2 = s)) ∧
    (∀ text rem,
      (chatHandler authOk rateOk demoActive today limit keep adapter messages s).1 =
        ChatResult.success text rem →
      (chatHandler authOk rateOk demoActive today limit keep adapter messages s).2.count =
        (resetDailyCounter today s).count + 1 ∧
      rem = max 0 (limit -
        (chatHandler authOk rateOk demoActive today limit keep adapter messages s).2.count)) ∧
    (∀ ms, authOk = true → rateOk = true → demoActive = true →
      (resetDailyCounter today s).count < limit →
      messages = some ms → ms.isEmpty = false →
      (∀ m, adapter (sliceLast keep ms) = AdapterOutcome.thrown m →
        chatHandler authOk rateOk demoActive today limit keep adapter messages s =
          (ChatResult.serverError, resetDailyCounter today s)) ∧
      (adapter (sliceLast keep ms) = AdapterOutcome.ret none →
        chatHandler authOk rateOk demoActive today limit keep adapter messages s =
          (ChatResult.serverError,
           ⟨(resetDailyCounter today s).count + 1,
            (resetDailyCounter today s).lastResetDate⟩))) := by
  have hreset : today = s.lastResetDate → resetDailyCounter today s = s := by
    intro h
    simp [resetDailyCounter, h]
  cases authOk with
  | false => simp [chatHandler, isGateRejection]
  | true =>
  cases rateOk with
  | false => simp [chatHandler, isGateRejection]
  | true =>
  by_cases hd : limit ≤ (resetDailyCounter today s).count
  · simp only [chatHandler, hd, if_true, if_false, isGateRejection]
    simp [not_lt.mpr hd]
    exact hreset
  · cases demoActive with
    | false =>
      simp only [chatHandler, hd, isGateRejection]
      simp
      exact hreset
    | true =>
    match messages with
    | none =>
      simp only [chatHandler, hd, isGateRejection]
      simp
      exact hreset
    | some ms =>
      by_cases he : ms.isEmpty
      · have hms : ms = [] := by simpa using he
        simp only [chatHandler, hd, he, isGateRejection]
        simp [he, hms]
        exact hreset
      · rcases ha : adapter (sliceLast keep ms) with v | m
        · rcases v with _ | j
          · simp [chatHandler, hd, he, ha, isGateRejection]
          · cases j <;> simp [chatHandler, hd, he, ha, isGateRejection]
        · simp [chatHandler, hd, he, ha, isGateRejection]

/-- Witness for the amended claim C5: with every gate passing and the
adapter returning `undefined`, the request ends in the 500 result with the
counter incremented from 2 to 3. -/
theorem counter_mutation_policy_witness :
    chatHandler true true true 0 500 8 (fun _ => AdapterOutcome.ret none)
      (some [Msg.mk "user" "hi"]) ⟨2, 0⟩ =
      (ChatResult.serverError, ⟨3, 0⟩) := by
  have h := counter_mutation_policy true true true 0 500 8
    (fun _ => AdapterOutcome.ret none) (fun _ => AdapterOutcome.thrown "e")
    (some [Msg.mk "user" "hi"]) ⟨2, 0⟩
  have h3 := (h.2.2 [Msg.mk "user" "hi"] rfl rfl rfl (by decide) rfl rfl).2 rfl
  rw [h3]
  rfl

/-! ## Claim C6 -/

/-- Claim C6, confirmed: the gates run in the fixed order authentication →
per-minute rate limit → daily quota → demo-window expiry. Each rejection
result occurs exactly when its own gate fails and every earlier gate passed,
so no check is skipped, the demo-expired 403 requires the first three gates
to have passed, and any gate failure is terminal for the request. -/
theorem gate_order (authOk rateOk demoActive : Bool) (today : Nat)
    (limit : Int) (keep : Nat) (adapter : List Msg → AdapterOutcome)
    (messages : Option (List Msg)) (s : QuotaState) :
    ((chatHandler authOk rateOk demoActive today limit keep adapter messages s).1 =
        ChatResult.authError ↔ authOk = false) ∧
    ((chatHandler authOk rateOk demoActive today limit keep adapter messages s).1 =
        ChatResult.rateLimited ↔ authOk = true ∧ rateOk = false) ∧
    ((chatHandler authOk rateOk demoActive today limit keep adapter messages s).1 =
        ChatResult.dailyLimitReached ↔
      authOk = true ∧ rateOk = true ∧
        limit ≤ (resetDailyCounter today s).count) ∧
    ((chatHandler authOk rateOk demoActive today limit keep adapter messages s).1 =
        ChatResult.demoExpired ↔
      authOk = true ∧ rateOk = true ∧
        (resetDailyCounter today s).count < limit ∧ demoActive = false) := by
  cases authOk with
  | false => simp [chatHandler]
  | true =>
  cases rateOk with
  | false => simp [chatHandler]
  | true =>
  by_cases hd : limit ≤ (resetDailyCounter today s).count
  · simp [chatHandler, hd]
  · cases demoActive with
    | false => simp [chatHandler, hd, lt_of_not_le hd]
    | true =>
    match messages with
    | none => simp [chatHandler, hd]
    | some ms =>
      by_cases he : ms.isEmpty
      · simp [chatHandler, hd, he]
      · rcases ha : adapter (sliceLast keep ms) with v | m
        · rcases v with _ | j
          · simp [chatHandler, hd, he, ha]
          · cases j <;> simp [chatHandler, hd, he, ha]
        · simp [chatHandler, hd, he, ha]

/-! ## Claim C7 -/

/-- Claim C7, confirmed: the adapter receives exactly the most recent `keep`
entries of the supplied messages (12 in the structured variant, 8 in the
prompt variant, the `keep` argument of the pipeline), in original order: the
trimmed list is a suffix of the input of length `min keep n`, it is the
whole input when that has at most `keep` entries, and the pipeline outcome
depends on the adapter only through its value on that suffix. -/
theorem history_trimming (keep : Nat) (ms : List Msg)
    (authOk rateOk demoActive : Bool) (today : Nat) (limit : Int)
    (adapter adapter2 : List Msg → AdapterOutcome) (s : QuotaState) :
    (sliceLast keep ms).length = min keep ms.length ∧
    List.IsSuffix (sliceLast keep ms) ms ∧
    (ms.length ≤ keep → sliceLast keep ms = ms) ∧
    (adapter (sliceLast keep ms) = adapter2 (sliceLast keep ms) →
      chatHandler authOk rateOk demoActive today limit keep adapter (some ms) s =
        chatHandler authOk rateOk demoActive today limit keep adapter2 (some ms) s) := by
  refine ⟨?_, ⟨ms.take (ms.length - keep), ms.take_append_drop _⟩, ?_, ?_⟩
  · simp [sliceLast]
    omega
  · intro h
    simp [sliceLast, Nat.sub_eq_zero_of_le h]
  · intro h
    simp only [chatHandler, h]

/-- Witness for claim C7: a two-entry history is passed through whole when
the trim length is 8. -/
theorem history_trimming_witness :
    sliceLast 8 [Msg.mk "user" "a", Msg.mk "user" "b"] =
      [Msg.mk "user" "a", Msg.mk "user" "b"] := by
  have h := history_trimming 8 [Msg.mk "user" "a", Msg.mk "user" "b"]
    true true true 0 500 (fun _ => AdapterOutcome.ret none)
    (fun _ => AdapterOutcome.ret none) ⟨0, 0⟩
  exact h.2.2.1 (by decide)

/-- Frame lemma: the quota state after a chat request is the original state,
the post-reset state, or the post-reset state with the count incremented
by one. -/
theorem chatHandler_state_cases (a r d : Bool) (today : Nat) (limit : Int)
    (keep : Nat) (adapter : List Msg → AdapterOutcome)
    (messages : Option (List Msg)) (s : QuotaState) :
    (chatHandler a r d today limit keep adapter messages s).2 = s ∨
    (chatHandler a r d today limit keep adapter messages s).2 =
      resetDailyCounter today s ∨
    (chatHandler a r d today limit keep adapter messages s).2 =
      ⟨(resetDailyCounter today s).count + 1,
       (resetDailyCounter today s).lastResetDate⟩ := by
  cases a with
  | false => simp [chatHandler]
  | true =>
  cases r with
  | false => simp [chatHandler]
  | true =>
  by_cases hd : limit ≤ (resetDailyCounter today s).count
  · simp [chatHandler, hd]
  · cases d with
    | false => simp [chatHandler, hd]
    | true =>
    match messages with
    | none => simp [chatHandler, hd]
    | some ms =>
      by_cases he : ms.isEmpty
      · simp [chatHandler, hd, he]
      · rcases ha : adapter (sliceLast keep ms) with v | m
        · rcases v with _ | j
          · simp [chatHandler, hd, he, ha]
          · cases j <;> simp [chatHandler, hd, he, ha]
        · simp [chatHandler, hd, he, ha]

/-- The chat route can reply `invalidMessages` only when the supplied
messages value is absent, not an array, or the empty array. -/
theorem chatHandler_invalid_iff (a r d : Bool) (today : Nat) (limit : Int)
    (keep : Nat) (adapter : List Msg → AdapterOutcome)
    (messages : Option (List Msg)) (s : QuotaState) :
    (chatHandler a r d today limit keep adapter messages s).1 =
        ChatResult.invalidMessages ↔
      a = true ∧ r = true ∧ (resetDailyCounter today s).count < limit ∧
        d = true ∧ validMessages messages = false := by
  cases a with
  | false => simp [chatHandler]
  | true =>
  cases r with
  | false => simp [chatHandler]
  | true =>
  by_cases hd : limit ≤ (resetDailyCounter today s).count
  · simp [chatHandler, hd, not_lt_of_le hd]
  · cases d with
    | false => simp [chatHandler, hd]
    | true =>
    match messages with
    | none => simp [chatHandler, hd, lt_of_not_le hd, validMessages]
    | some ms =>
      by_cases he : ms.isEmpty
      · simp [chatHandler, hd, lt_of_not_le hd, he, validMessages]
      · rcases ha : adapter (sliceLast keep ms) with v | m
        · rcases v with _ | j
          · simp [chatHandler, hd, he, ha, validMessages]
          · cases j <;> simp [chatHandler, hd, he, ha, validMessages]
        · simp [chatHandler, hd, he, ha, validMessages]

/-! ## Claim C8 -/

/-- Claim C8, confirmed: the lazy reset zeroes the count and stores the new
day iff the current day differs from the stored one, leaves the state
untouched otherwise, and is idempotent within a day — so the counter is
zeroed exactly once per calendar-day transition, on the first reset check
after the day changes; moreover every operation of the server (the reset,
the chat pipeline, both verify handlers and the health route) preserves
non-negativity of the count. -/
theorem daily_reset_invariant (today : Nat) (s : QuotaState) :
    (today ≠ s.lastResetDate → resetDailyCounter today s = ⟨0, today⟩) ∧
    (today = s.lastResetDate → resetDailyCounter today s = s) ∧
    resetDailyCounter today (resetDailyCounter today s) =
      resetDailyCounter today s ∧
    (0 ≤ s.count →
      0 ≤ (resetDailyCounter today s).count ∧
      (∀ a r d limit keep adapter messages,
        0 ≤ (chatHandler a r d today limit keep adapter messages s).2.count) ∧
      (∀ limit secret password,
        0 ≤ (verifyClaude today limit secret password s).2.count) ∧
      (∀ limit secret password,
        0 ≤ (verifyHF today limit secret password s).2.count) ∧
      (∀ limit demoActive provider,
        0 ≤ (healthHandler today limit demoActive provider s).2.2.count)) := by
  have hr : 0 ≤ s.count → 0 ≤ (resetDailyCounter today s).count := by
    intro h
    unfold resetDailyCounter
    split <;> simp [h]
  refine ⟨?_, ?_, ?_, ?_⟩
  · intro h
    simp [resetDailyCounter, h]
  · intro h
    simp [resetDailyCounter, h]
  · unfold resetDailyCounter
    split <;> simp
  · intro h
    refine ⟨hr h, ?_, ?_, ?_, ?_⟩
    · intro a r d limit keep adapter messages
      rcases chatHandler_state_cases a r d today limit keep adapter messages s
        with hc | hc | hc <;> rw [hc]
      · exact h
      · exact hr h
      · have h2 := hr h
        have h3 : (0 : Int) ≤ (resetDailyCounter today s).count + 1 := by omega
        exact h3
    · intro limit secret password
      unfold verifyClaude
      split
      · simpa using h
      · split
        · simpa using hr h
        · simpa using h
    · intro limit secret password
      unfold verifyHF
      split
      · simpa using h
      · split
        · simpa using hr h
        · simpa using h
    · intro limit demoActive provider
      simpa [healthHandler] using hr h

/-- Witness for claim C8: a day change zeroes the counter and stores the new
day. -/
theorem daily_reset_invariant_witness :
    resetDailyCounter 7 ⟨42, 6⟩ = ⟨0, 7⟩ := by
  have h := daily_reset_invariant 7 ⟨42, 6⟩
  exact h.1 (by decide)

/-! ## Claim C9 -/

/-- Claim C9, confirmed: `GET /health` always returns HTTP 200 with the
status body, for every quota state (the route runs no authentication or
rate middleware, so those states never influence it), and its only effect
on shared state is the lazy day-reset: the stored quota state is either
unchanged or freshly zeroed at the new day, never incremented; the body
reports the post-reset count. -/
theorem health_frame (today : Nat) (limit : Int) (demoActive : Bool)
    (provider : String) (s : QuotaState) :
    (healthHandler today limit demoActive provider s).1 = 200 ∧
    (healthHandler today limit demoActive provider s).2.2 =
      resetDailyCounter today s ∧
    (today = s.lastResetDate →
      (healthHandler today limit demoActive provider s).2.2 = s) ∧
    ((healthHandler today limit demoActive provider s).2.2 = s ∨
     (healthHandler today limit demoActive provider s).2.2 = ⟨0, today⟩) ∧
    (healthHandler today limit demoActive provider s).2.1.requestsToday =
      (resetDailyCounter today s).count ∧
    (healthHandler today limit demoActive provider s).2.1.status = "online" := by
  refine ⟨rfl, rfl, ?_, ?_, rfl, rfl⟩
  · intro h
    simp [healthHandler, resetDailyCounter, h]
  · unfold healthHandler resetDailyCounter
    split <;> simp

/-- Witness for claim C9: within the same day the health route leaves the
quota state untouched. -/
theorem health_frame_witness :
    (healthHandler 3 200 true "p" ⟨9, 3⟩).2.2 = ⟨9, 3⟩ := by
  have h := health_frame 3 200 true "p" ⟨9, 3⟩
  exact h.2.2.1 rfl

/-! ## Claim C10 -/

/-- Claim C10, confirmed: a message whose role is none of system, user or
assistant contributes nothing to the built prompt — removing it leaves the
prompt unchanged — yet a messages array containing it still passes request
validation, which only requires a non-empty array, so the request is never
rejected as invalid. -/
theorem unknown_role_contributes_nothing (pre post : List Msg) (m : Msg)
    (h1 : m.role ≠ "system") (h2 : m.role ≠ "user") (h3 : m.role ≠ "assistant") :
    buildPrompt (pre ++ m :: post) = buildPrompt (pre ++ post) ∧
    validMessages (some (pre ++ m :: post)) = true ∧
    (∀ a r d today limit keep adapter s,
      (chatHandler a r d today limit keep adapter (some (pre ++ m :: post)) s).1 ≠
        ChatResult.invalidMessages) := by
  have hrender : renderMsg m = "" := by
    simp [renderMsg, h1, h2, h3]
  refine ⟨?_, ?_, ?_⟩
  · unfold buildPrompt
    rw [List.foldl_append, List.foldl_append, List.foldl_cons, hrender,
      String.append_empty]
  · simp [validMessages]
  · intro a r d today limit keep adapter s
    intro hcontra
    have hiff := chatHandler_invalid_iff a r d today limit keep adapter
      (some (pre ++ m :: post)) s
    have hv := (hiff.mp hcontra).2.2.2.2
    simp [validMessages] at hv

/-- Witness for claim C10: a ghost-role message adds nothing to the prompt
yet keeps the request valid. -/
theorem unknown_role_contributes_nothing_witness :
    buildPrompt [Msg.mk "ghost" "boo", Msg.mk "user" "hi"] =
      buildPrompt [Msg.mk "user" "hi"] := by
  have h := unknown_role_contributes_nothing [] [Msg.mk "user" "hi"]
    (Msg.mk "ghost" "boo") (by decide) (by decide) (by decide)
  exact h.1

end Echoes
